import Mathlib

/-!
Shallow embedding of the DeepAgent Kraken order router and environment
manager (src/app/core/env_manager.py and src/app/core/order_router.py),
together with theorems about the routing, failover, environment-promotion
and performance-accounting behaviour.

Modelling conventions:
* wall-clock instants are rationals measured in hours, passed explicitly as
  a `now` argument where the source calls `datetime.now()`;
* money amounts and percentages are rationals;
* a connector method that can raise is embedded as `Except String`, the
  error string standing for `str(e)` of the raised exception;
* the Prometheus counter `ENV_SWITCH_TOTAL` is a natural-number field and
  the YAML files written by `_save_config` are collected in a list field,
  so that metric increments and persistence are observable;
* Python dicts that the code iterates or mutates are insertion-ordered
  association lists.
-/

namespace Kraken

/-- Trading environment enum (`Environment` in env_manager.py). -/
inductive Env
  | testnet
  | mainnet
deriving DecidableEq

/-- The payload written by `EnvironmentManager._save_config`. -/
structure EnvConfig where
  environment : Env
  auto_switch_enabled : Bool
  testnet_duration_hours : ℚ
  min_trades_for_switch : ℕ
  max_drawdown_pct_for_switch : ℚ
deriving DecidableEq

/-- State of an `EnvironmentManager` instance: the `EnvironmentSettings`
fields the algorithms read, the performance-tracking fields set in
`__init__`, the `ENV_SWITCH_TOTAL` metric and the persisted config files. -/
structure EnvManagerState where
  environment : Env
  auto_switch_enabled : Bool
  testnet_duration_hours : ℚ
  min_trades_for_switch : ℕ
  max_drawdown_pct_for_switch : ℚ
  start_time : ℚ
  last_switch_time : ℚ
  trade_count : ℕ
  peak_equity : ℚ
  current_equity : ℚ
  max_drawdown_pct : ℚ
  env_switch_total : ℕ
  saved_configs : List EnvConfig
deriving DecidableEq

namespace EnvironmentManager

/-- `EnvironmentManager.should_switch_to_mainnet` (env_manager.py 204-233).
`now - s.start_time` embeds `datetime.now() - self.start_time` in hours. -/
def should_switch_to_mainnet (s : EnvManagerState) (now : ℚ) : Bool :=
  if s.environment ≠ Env.testnet ∨ s.auto_switch_enabled = false then false
  else if now - s.start_time < s.testnet_duration_hours then false
  else if s.trade_count < s.min_trades_for_switch then false
  else if s.max_drawdown_pct > s.max_drawdown_pct_for_switch then false
  else true

/-- `EnvironmentManager.set_environment` (env_manager.py 158-183). The
source guard `if environment not in [TESTNET, MAINNET]: return` can never
fire because `Env` has exactly those two constructors, so it is omitted.
The method returns `None` in the source; here it returns the new state. -/
def set_environment (environment : Env) (save : Bool) (now : ℚ)
    (s : EnvManagerState) : EnvManagerState :=
  { s with
    environment := environment
    last_switch_time := now
    env_switch_total := s.env_switch_total + 1
    saved_configs :=
      if save then
        s.saved_configs ++
          [{ environment := environment
             auto_switch_enabled := s.auto_switch_enabled
             testnet_duration_hours := s.testnet_duration_hours
             min_trades_for_switch := s.min_trades_for_switch
             max_drawdown_pct_for_switch := s.max_drawdown_pct_for_switch }]
      else s.saved_configs }

/-- `EnvironmentManager.switch_environment` (env_manager.py 235-259). -/
def switch_environment (target_env : Option Env) (now : ℚ)
    (s : EnvManagerState) : Bool × EnvManagerState :=
  let current_env := s.environment
  let target :=
    match target_env with
    | none => if current_env = Env.testnet then Env.mainnet else Env.testnet
    | some t => t
  if current_env = target then (false, s)
  else (true, set_environment target true now s)

/-- `EnvironmentManager.update_performance_metrics` (env_manager.py
185-202). -/
def update_performance_metrics (equity : ℚ) (trade_count : ℕ)
    (max_drawdown_pct : ℚ) (s : EnvManagerState) : EnvManagerState :=
  { s with
    current_equity := equity
    trade_count := trade_count
    max_drawdown_pct := max_drawdown_pct
    peak_equity := if equity > s.peak_equity then equity else s.peak_equity }

end EnvironmentManager

/-- The order-parameter dict built by `execute_strategy` and passed to
`place_order`. `stop_price` is `none` where the source dict has no
`stop_price` key. -/
structure OrderParams where
  symbol : String
  side : String
  type : String
  quantity : ℚ
  stop_price : Option ℚ
  reduce_only : Bool
deriving DecidableEq

/-- The update-parameter dict passed to `update_order` by the
`update_stop` path. -/
structure UpdateParams where
  stop_price : ℚ
deriving DecidableEq

/-- A response dict coming back from a connector call, or built by the
router on failure. A key the dict lacks is the empty string: the source
only ever reads these keys through `.get(key, default)`. -/
structure OrderResponse where
  status : String := ""
  message : String := ""
  order_id : String := ""
deriving DecidableEq

/-- The account-info dict returned by a connector
(`get_account_info`). Only the `equity` key is read. -/
structure AccountInfo where
  equity : ℚ
deriving DecidableEq

/-- A connector instance as the router sees it: the methods the router
calls on `self.exchanges[name]`. An `Except.error msg` stands for the
method raising an exception with `str(e) = msg`. -/
structure ExchangeConn where
  place_order : OrderParams → Except String OrderResponse
  update_order : String → UpdateParams → Except String OrderResponse
  cancel_order : String → Except String OrderResponse
  get_account_info : Except String AccountInfo

/-- One entry of `self.order_history`. The source dicts carry different
key sets per path: `timestamp` is omitted (wall clock, never read),
`failover` is `false` where the source record has no `failover` key, and
`type`, `order_id`, `error` are `""` where absent; `params`,
`update_params` and `response` are `none` where absent. -/
structure OrderRecord where
  exchange : String := ""
  order_id : String := ""
  params : Option OrderParams := none
  update_params : Option UpdateParams := none
  response : Option OrderResponse := none
  status : String := ""
  failover : Bool := false
  type : String := ""
  error : String := ""
deriving DecidableEq

/-- One entry of `self.active_positions`, as created by the `open` path
of `execute_strategy`. `entry_time` is omitted (wall clock, never read);
note the source never stores an `exchange` key in this dict. -/
structure ActivePosition where
  side : String
  size : ℚ
  entry_price : ℚ
  stop_loss : ℚ
  stop_order_id : String
  entry_order_id : String
deriving DecidableEq

/-- One entry of `config[exchanges]`; credentials and URLs are opaque to
the router, which only reads `name` and hands the entry to the connector
factory. -/
structure ExchangeCfg where
  name : String
deriving DecidableEq

/-- Python dict lookup on an insertion-ordered association list. -/
def dict_get {α : Type} (l : List (String × α)) (k : String) : Option α :=
  (l.find? (fun e => e.1 = k)).map (fun e => e.2)

/-- Python dict assignment: an existing key keeps its position, a new key
is appended at the end. -/
def dict_set {α : Type} (l : List (String × α)) (k : String) (v : α) :
    List (String × α) :=
  if l.any (fun e => e.1 = k) then
    l.map (fun e => if e.1 = k then (k, v) else e)
  else l ++ [(k, v)]

/-- Python `del d[k]`. -/
def dict_del {α : Type} (l : List (String × α)) (k : String) :
    List (String × α) :=
  l.filter (fun e => ¬ e.1 = k)

/-- State of an `OrderRouter` instance. `exchanges` is the connector map
in insertion order; `config_exchanges` is `self.config[exchanges]`, kept
so that `handle_env_change` can rebuild the map. The strategy and risk
manager objects are external collaborators and are not part of the
state the claims concern. -/
structure RouterState where
  config_exchanges : List ExchangeCfg
  exchanges : List (String × ExchangeConn)
  primary_exchange : String
  active_positions : List (String × ActivePosition)
  order_history : List OrderRecord
  total_trades : ℕ
  current_equity : ℚ
  peak_equity : ℚ
  max_drawdown_pct : ℚ

namespace OrderRouter

/-- `if not exchange_name: exchange_name = self.primary_exchange` — Python
treats both `None` and the empty string as falsy. -/
def resolve_exchange_name (st : RouterState) (exchange_name : Option String) :
    String :=
  match exchange_name with
  | none => st.primary_exchange
  | some n => if n = "" then st.primary_exchange else n

/-- `OrderRouter.get_exchange` (order_router.py 119-136). -/
def get_exchange (st : RouterState) (exchange_name : Option String) :
    Option ExchangeConn :=
  dict_get st.exchanges (resolve_exchange_name st exchange_name)

/-- The failover loop of `place_order`: try each exchange of the
(already filtered) list in map order, stopping at the first success.
Returns the first success with its exchange name, and the list of
exchange names whose `place_order` connector method was invoked. -/
def place_failover : List (String × ExchangeConn) → OrderParams →
    Option (String × OrderResponse) × List String
  | [], _ => (none, [])
  | (n, ex) :: rest, p =>
    match ex.place_order p with
    | .ok r => (some (n, r), [n])
    | .error _ =>
      let rec_rest := place_failover rest p
      (rec_rest.1, n :: rec_rest.2)

/-- The list scanned by the failover loops of `place_order`: every
configured exchange except the named one, in map order. -/
def other_exchanges (st : RouterState) (name : String) :
    List (String × ExchangeConn) :=
  st.exchanges.filter (fun e => ¬ e.1 = name)

/-- Specification-level description of the failover scan: the first
exchange of the list, in map order, whose `place_order` succeeds,
together with its response. -/
def first_success (l : List (String × ExchangeConn)) (p : OrderParams) :
    Option (String × OrderResponse) :=
  l.findSome? (fun e =>
    match e.2.place_order p with
    | .ok r => some (e.1, r)
    | .error _ => none)

/-- `OrderRouter.place_order` (order_router.py 240-355). Returns the
response dict, the updated router state, and the trace of exchange names
whose `place_order` connector method was invoked, in order. -/
def place_order (st : RouterState) (order_params : OrderParams)
    (exchange_name : Option String) :
    OrderResponse × RouterState × List String :=
  let name := resolve_exchange_name st exchange_name
  match dict_get st.exchanges name with
  | none =>
    -- Exchange not found: try every other configured exchange in map order.
    match place_failover (other_exchanges st name) order_params with
    | (some (n, r), att) =>
      (r,
       { st with order_history := st.order_history ++
           [{ exchange := n, params := some order_params, response := some r,
              status := "success", failover := true }] },
       att)
    | (none, att) =>
      ({ status := "error", message := "All exchanges failed to place order" },
       { st with order_history := st.order_history ++
           [{ exchange := name, params := some order_params,
              status := "failed", error := "All exchanges failed" }] },
       att)
  | some ex =>
    match ex.place_order order_params with
    | .ok r =>
      (r,
       { st with order_history := st.order_history ++
           [{ exchange := name, params := some order_params,
              response := some r, status := "success" }] },
       [name])
    | .error e =>
      -- Named exchange raised: try every other configured exchange.
      match place_failover (other_exchanges st name) order_params with
      | (some (n, r), att) =>
        (r,
         { st with order_history := st.order_history ++
             [{ exchange := n, params := some order_params,
                response := some r, status := "success", failover := true }] },
         name :: att)
      | (none, att) =>
        ({ status := "error", message := e },
         { st with order_history := st.order_history ++
             [{ exchange := name, params := some order_params,
                status := "failed", error := e }] },
         name :: att)

/-- `OrderRouter.update_order` (order_router.py 357-413). No failover:
a failure is returned immediately; when the named exchange is absent no
record is appended at all. -/
def update_order (st : RouterState) (order_id : String)
    (update_params : UpdateParams) (exchange_name : Option String) :
    OrderResponse × RouterState × List String :=
  let name := resolve_exchange_name st exchange_name
  match dict_get st.exchanges name with
  | none =>
    ({ status := "error", message := "Exchange " ++ name ++ " not found" },
     st, [])
  | some ex =>
    match ex.update_order order_id update_params with
    | .ok r =>
      (r,
       { st with order_history := st.order_history ++
           [{ exchange := name, order_id := order_id,
              update_params := some update_params, response := some r,
              status := "success", type := "update" }] },
       [name])
    | .error e =>
      ({ status := "error", message := e },
       { st with order_history := st.order_history ++
           [{ exchange := name, order_id := order_id,
              update_params := some update_params, status := "failed",
              type := "update", error := e }] },
       [name])

/-- `OrderRouter.cancel_order` (order_router.py 415-467). Same
no-failover contract as `update_order`. -/
def cancel_order (st : RouterState) (order_id : String)
    (exchange_name : Option String) :
    OrderResponse × RouterState × List String :=
  let name := resolve_exchange_name st exchange_name
  match dict_get st.exchanges name with
  | none =>
    ({ status := "error", message := "Exchange " ++ name ++ " not found" },
     st, [])
  | some ex =>
    match ex.cancel_order order_id with
    | .ok r =>
      (r,
       { st with order_history := st.order_history ++
           [{ exchange := name, order_id := order_id, response := some r,
              status := "success", type := "cancel" }] },
       [name])
    | .error e =>
      ({ status := "error", message := e },
       { st with order_history := st.order_history ++
           [{ exchange := name, order_id := order_id, status := "failed",
              type := "cancel", error := e }] },
       [name])

end OrderRouter

/-- The signal dict produced by `self.strategy.generate_signal()`.
Fields other than `action` default to neutral values, standing for keys
the strategy may omit on actions that do not read them. -/
structure Signal where
  action : String
  side : String := ""
  size : ℚ := 0
  entry_price : ℚ := 0
  stop_loss : ℚ := 0
  reason : String := ""
deriving DecidableEq

/-- A router-level order operation issued while processing a signal; the
trace of these calls makes the ordering claims about `execute_strategy`
statable. -/
inductive RouterCall
  | place (params : OrderParams)
  | update (order_id : String) (update_params : UpdateParams)
  | cancel (order_id : String)
deriving DecidableEq

/-- The result dict of `execute_strategy`. Keys a given path does not
set keep their defaults. -/
structure ExecResult where
  status : String
  message : String := ""
  action : String := ""
  side : String := ""
  size : ℚ := 0
  entry_price : ℚ := 0
  stop_loss : ℚ := 0
  new_stop : ℚ := 0
  reason : String := ""
  entry_order : Option OrderResponse := none
  stop_order : Option OrderResponse := none
  exit_order : Option OrderResponse := none
  update_response : Option OrderResponse := none
deriving DecidableEq

/-- The entry-order params built by the `open` path
(order_router.py 506-512). -/
def entry_params (signal : Signal) (symbol : String) : OrderParams :=
  { symbol := symbol
    side := if signal.side = "long" then "buy" else "sell"
    type := "market"
    quantity := signal.size
    stop_price := none
    reduce_only := false }

/-- The stop-loss-order params built by the `open` path
(order_router.py 522-529). -/
def stop_loss_params (signal : Signal) (symbol : String) : OrderParams :=
  { symbol := symbol
    side := if signal.side = "long" then "sell" else "buy"
    type := "stop_market"
    quantity := signal.size
    stop_price := some signal.stop_loss
    reduce_only := true }

/-- The reduce-only market exit params built for an existing position by
the `close` path (order_router.py 570-576) and by `close_all_positions`
(order_router.py 704-710) — the two sites build the same dict. -/
def close_params (position : ActivePosition) (symbol : String) : OrderParams :=
  { symbol := symbol
    side := if position.side = "long" then "sell" else "buy"
    type := "market"
    quantity := position.size
    stop_price := none
    reduce_only := true }

namespace OrderRouter

/-- `OrderRouter.execute_strategy` (order_router.py 469-643). The
external collaborators are abstracted: `has_strategy` models
`self.strategy` being set, `market_data_ok` and `equity_ok` model the
boolean results of `update_market_data` and `update_account_equity`
(neither touches `order_history` or `active_positions`; an equity
failure is only logged), and `signal` is the dict returned by
`self.strategy.generate_signal()`. Returns the result dict, the updated
state, and the trace of router-level order calls made, in order. -/
def execute_strategy (st : RouterState)
    (has_strategy market_data_ok equity_ok : Bool)
    (signal : Signal) (symbol : String) :
    ExecResult × RouterState × List RouterCall :=
  if has_strategy = false then
    ({ status := "error", message := "Strategy not initialized" }, st, [])
  else if market_data_ok = false then
    ({ status := "error", message := "Failed to update market data" }, st, [])
  else if signal.action = "open" then
    let order_params := entry_params signal symbol
    let pr := place_order st order_params none
    let entry_response := pr.1
    let st1 := pr.2.1
    if entry_response.status = "error" then
      ({ status := "error",
         message := "Failed to place entry order: " ++ entry_response.message },
       st1, [RouterCall.place order_params])
    else
      let stop_params := stop_loss_params signal symbol
      let sr := place_order st1 stop_params none
      let stop_response := sr.1
      let st2 := sr.2.1
      if stop_response.status = "error" then
        -- Best-effort cancel of the just-placed entry order.
        let cr := cancel_order st2 entry_response.order_id none
        ({ status := "error",
           message := "Failed to place stop loss order: " ++
             stop_response.message },
         cr.2.1,
         [RouterCall.place order_params, RouterCall.place stop_params,
          RouterCall.cancel entry_response.order_id])
      else
        let new_position : ActivePosition :=
          { side := signal.side
            size := signal.size
            entry_price := signal.entry_price
            stop_loss := signal.stop_loss
            stop_order_id := stop_response.order_id
            entry_order_id := entry_response.order_id }
        let st3 := { st2 with active_positions := (
          dict_set st2.active_positions symbol new_position) }
        ({ status := "success"
           action := "open"
           side := signal.side
           size := signal.size
           entry_price := signal.entry_price
           stop_loss := signal.stop_loss
           entry_order := some entry_response
           stop_order := some stop_response },
         st3,
         [RouterCall.place order_params, RouterCall.place stop_params])
  else if signal.action = "close" then
    match dict_get st.active_positions symbol with
    | none =>
      ({ status := "warning",
         message := "No active position found for " ++ symbol }, st, [])
    | some position =>
      let order_params := close_params position symbol
      let pr := place_order st order_params none
      let exit_response := pr.1
      let st1 := pr.2.1
      if exit_response.status = "error" then
        ({ status := "error",
           message := "Failed to close position: " ++ exit_response.message },
         st1, [RouterCall.place order_params])
      else
        let step2 :=
          if position.stop_order_id = "" then
            (st1, [RouterCall.place order_params])
          else
            let cr := cancel_order st1 position.stop_order_id none
            (cr.2.1,
             [RouterCall.place order_params,
              RouterCall.cancel position.stop_order_id])
        let st2 := { step2.1 with active_positions := (
          dict_del step2.1.active_positions symbol) }
        ({ status := "success"
           action := "close"
           side := position.side
           size := position.size
           exit_order := some exit_response },
         st2, step2.2)
  else if signal.action = "update_stop" then
    match dict_get st.active_positions symbol with
    | none =>
      ({ status := "warning",
         message := "No active position found for " ++ symbol }, st, [])
    | some position =>
      let new_stop := signal.stop_loss
      let stop_order_id := position.stop_order_id
      if stop_order_id = "" then
        ({ status := "warning",
           message := "No stop order ID found for " ++ symbol }, st, [])
      else
        let update_params : UpdateParams := { stop_price := new_stop }
        let ur := update_order st stop_order_id update_params none
        let update_response := ur.1
        let st1 := ur.2.1
        if update_response.status = "error" then
          ({ status := "error",
             message := "Failed to update stop loss: " ++
               update_response.message },
           st1, [RouterCall.update stop_order_id update_params])
        else
          let st2 := { st1 with active_positions := (
            dict_set st1.active_positions symbol
              { position with stop_loss := new_stop }) }
          ({ status := "success"
             action := "update_stop"
             side := position.side
             new_stop := new_stop
             update_response := some update_response },
           st2, [RouterCall.update stop_order_id update_params])
  else
    ({ status := "success"
       action := signal.action
       reason := signal.reason }, st, [])

/-- The body of the for-loop of `close_all_positions`
(order_router.py 699-732), folded over the snapshot
`positions_to_close`; the accumulator carries the state and the
`success` flag. ActivePosition dicts carry no `exchange` key (the `open`
path never stores one), so `position.get(exchange, primary)` always
resolves to the primary exchange. -/
def close_positions_loop (acc : RouterState × Bool) :
    List (String × ActivePosition) → RouterState × Bool
  | [] => acc
  | (symbol, position) :: rest =>
    let st := acc.1
    let exchange_name := st.primary_exchange
    let pr := place_order st (close_params position symbol)
      (some exchange_name)
    if pr.1.status = "error" then
      close_positions_loop (pr.2.1, false) rest
    else
      let st1 := pr.2.1
      let st2 :=
        if position.stop_order_id = "" then st1
        else (cancel_order st1 position.stop_order_id
          (some exchange_name)).2.1
      let st3 := { st2 with active_positions := (
        dict_del st2.active_positions symbol) }
      close_positions_loop (st3, acc.2) rest

/-- `OrderRouter.close_all_positions` (order_router.py 685-734). -/
def close_all_positions (st : RouterState) : Bool × RouterState :=
  if st.active_positions = [] then (true, st)
  else
    let r := close_positions_loop (st, true) st.active_positions
    (r.2, r.1)

/-- `OrderRouter._setup_exchanges` (order_router.py 53-78): build the
exchange map from the config list, skipping entries with an empty name
and entries for which the connector factory returns nothing. The factory
`create_connector` does I/O and is abstracted as the parameter `create`
(its result depends on the credentials of the current environment). Config
lists whose names are distinct — the only kind the claims involve —
behave exactly as the Python dict insertion. -/
def setup_exchanges (create : ExchangeCfg → Option ExchangeConn) :
    List ExchangeCfg → List (String × ExchangeConn)
  | [] => []
  | cfg :: rest =>
    if cfg.name = "" then setup_exchanges create rest
    else
      match create cfg with
      | some conn => (cfg.name, conn) :: setup_exchanges create rest
      | none => setup_exchanges create rest

/-- `OrderRouter.handle_env_change` (order_router.py 646-683). The env
manager is threaded explicitly; `create` abstracts the connector
factory used by the rebuild; `now` is the wall clock in hours. -/
def handle_env_change (create : ExchangeCfg → Option ExchangeConn)
    (now : ℚ) (target_env : Option Env) (st : RouterState)
    (em : EnvManagerState) : Bool × RouterState × EnvManagerState :=
  let current_env := em.environment
  let resolved : Option Env :=
    match target_env with
    | none =>
      if EnvironmentManager.should_switch_to_mainnet em now then
        some Env.mainnet
      else none
    | some t => some t
  match resolved with
  | none => (false, st, em)
  | some target =>
    if current_env = target then (false, st, em)
    else
      let c := close_all_positions st
      let e := EnvironmentManager.switch_environment (some target) now em
      let st2 := { c.2 with exchanges := (
        setup_exchanges create c.2.config_exchanges) }
      (true, st2, e.2)

/-- The equity-polling loop at the top of
`OrderRouter.update_performance_metrics` (order_router.py 742-749): the
first exchange whose `get_account_info` succeeds provides the equity and
the loop breaks; if every exchange raises, `self.current_equity` keeps
its previous value. -/
def poll_equity (cur : ℚ) : List (String × ExchangeConn) → ℚ
  | [] => cur
  | (_, ex) :: rest =>
    match ex.get_account_info with
    | .ok info => info.equity
    | .error _ => poll_equity cur rest

/-- `OrderRouter.update_performance_metrics` (order_router.py 736-772). -/
def update_performance_metrics (st : RouterState) (em : EnvManagerState) :
    RouterState × EnvManagerState :=
  let current_equity := poll_equity st.current_equity st.exchanges
  let peak_equity :=
    if current_equity > st.peak_equity then current_equity
    else st.peak_equity
  let max_drawdown_pct :=
    if peak_equity > 0 then
      max st.max_drawdown_pct
        ((peak_equity - current_equity) / peak_equity * 100)
    else st.max_drawdown_pct
  let st1 := { st with
    current_equity := current_equity
    peak_equity := peak_equity
    max_drawdown_pct := max_drawdown_pct }
  (st1,
   EnvironmentManager.update_performance_metrics current_equity
     st.total_trades max_drawdown_pct em)

/-- `OrderRouter.get_new_trade_count` (order_router.py 794-804). -/
def get_new_trade_count (st : RouterState) : ℤ × RouterState :=
  let new_trades : ℤ :=
    (st.order_history.length : ℤ) - (st.total_trades : ℤ)
  (max 0 new_trades, { st with total_trades := st.order_history.length })

end OrderRouter

/-! ### Concrete instances used by witnesses and counterexamples -/

/-- An environment-manager state meeting every promotion criterion at
`now = 72`: thresholds 48 h / 10 trades / 4 %, with 20 trades and 2 %
drawdown accumulated since `start_time = 0`. -/
def ex_em : EnvManagerState :=
  { environment := Env.testnet
    auto_switch_enabled := true
    testnet_duration_hours := 48
    min_trades_for_switch := 10
    max_drawdown_pct_for_switch := 4
    start_time := 0
    last_switch_time := 0
    trade_count := 20
    peak_equity := 0
    current_equity := 0
    max_drawdown_pct := 2
    env_switch_total := 0
    saved_configs := [] }

/-- A connector whose every call succeeds, tagging responses with the
given order id and reporting the given equity. -/
def ok_conn (oid : String) (equity : ℚ) : ExchangeConn :=
  { place_order := fun _ => .ok { status := "ok", order_id := oid }
    update_order := fun _ _ => .ok { status := "ok", order_id := oid }
    cancel_order := fun _ => .ok { status := "ok", order_id := oid }
    get_account_info := .ok { equity := equity } }

/-- A connector whose every call raises. -/
def down_conn : ExchangeConn :=
  { place_order := fun _ => .error "connection refused"
    update_order := fun _ _ => .error "connection refused"
    cancel_order := fun _ => .error "connection refused"
    get_account_info := .error "connection refused" }

/-- A router with a failing primary (`bybit`) and a healthy failover
(`okx`). -/
def ex_router_failover : RouterState :=
  { config_exchanges := [{ name := "bybit" }, { name := "okx" }]
    exchanges := [("bybit", down_conn), ("okx", ok_conn "f1" 1000)]
    primary_exchange := "bybit"
    active_positions := []
    order_history := []
    total_trades := 0
    current_equity := 0
    peak_equity := 0
    max_drawdown_pct := 0 }

/-- A router whose every configured exchange is down. -/
def ex_router_all_down : RouterState :=
  { ex_router_failover with
    exchanges := [("bybit", down_conn), ("okx", down_conn)] }

/-- A router with a single healthy exchange. -/
def ex_router_ok : RouterState :=
  { ex_router_failover with exchanges := [("bybit", ok_conn "o1" 1000)] }

/-- A sample order-parameter dict. -/
def ex_params : OrderParams :=
  { symbol := "BTCUSDT"
    side := "buy"
    type := "market"
    quantity := 1
    stop_price := none
    reduce_only := false }

/-- A sample `open` signal. -/
def ex_open_signal : Signal :=
  { action := "open"
    side := "long"
    size := 1
    entry_price := 100
    stop_loss := 95 }

/-- Replace the exchange set with a single healthy exchange reporting
equity `v` — the device used to feed an equity sequence into
`update_performance_metrics` one observation per call. -/
def equity_router (v : ℚ) (st : RouterState) : RouterState :=
  { st with exchanges := [("kraken", ok_conn "k" v)] }

/-- One `update_performance_metrics` call observing equity `v`. -/
def c7_step (v : ℚ) (s : RouterState × EnvManagerState) :
    RouterState × EnvManagerState :=
  OrderRouter.update_performance_metrics (equity_router v s.1) s.2

/-- The state after observing equities 1000, 1200, 900 from the zero
state. -/
def c7_s3 : RouterState × EnvManagerState :=
  c7_step 900 (c7_step 1200 (c7_step 1000 (ex_router_failover, ex_em)))

/-- The state after the further uptick to 1100. -/
def c7_s4 : RouterState × EnvManagerState := c7_step 1100 c7_s3

/-- A router in mid-session whose every exchange has gone down:
equity last seen at 900 against a peak of 1200, drawdown 25 %. -/
def c10_router : RouterState :=
  { ex_router_all_down with
    current_equity := 900
    peak_equity := 1200
    max_drawdown_pct := 25 }

/-- A connector factory that fails for every config entry. -/
def no_factory : ExchangeCfg → Option ExchangeConn := fun _ => none

/-! ### Theorems -/

open OrderRouter

/-- `should_switch_to_mainnet` is the conjunction of the five promotion
criteria (helper characterization shared by several claims). -/
theorem should_switch_true_iff (s : EnvManagerState) (now : ℚ) :
    EnvironmentManager.should_switch_to_mainnet s now = true ↔
      s.environment = Env.testnet ∧ s.auto_switch_enabled = true ∧
      s.testnet_duration_hours ≤ now - s.start_time ∧
      s.min_trades_for_switch ≤ s.trade_count ∧
      s.max_drawdown_pct ≤ s.max_drawdown_pct_for_switch := by
  unfold EnvironmentManager.should_switch_to_mainnet
  split_ifs with h1 h2 h3 h4
  · simp only [Bool.false_eq_true, false_iff]
    rintro ⟨e1, e2, _, _, _⟩
    rcases h1 with h1 | h1
    · exact h1 e1
    · rw [e2] at h1; cases h1
  · simp only [Bool.false_eq_true, false_iff]
    rintro ⟨_, _, e3, _, _⟩
    linarith
  · simp only [Bool.false_eq_true, false_iff]
    rintro ⟨_, _, _, e4, _⟩
    omega
  · simp only [Bool.false_eq_true, false_iff]
    rintro ⟨_, _, _, _, e5⟩
    linarith
  · simp only [true_iff]
    push_neg at h1
    refine ⟨h1.1, ?_, le_of_not_lt h2, le_of_not_lt h3, le_of_not_lt h4⟩
    rcases Bool.eq_false_or_eq_true s.auto_switch_enabled with hb | hb
    · exact hb
    · exact absurd hb h1.2

/-- Claim C1: `should_switch_to_mainnet()` returns true iff the current
environment is TESTNET, auto-switch is enabled, elapsed time since
`start_time` is at least `testnet_duration_hours`, `trade_count` is at
least `min_trades_for_switch`, and `max_drawdown_pct` is at most
`max_drawdown_pct_for_switch`; making any single criterion fail forces
the result to false. -/
theorem should_switch_to_mainnet_iff_criteria (s : EnvManagerState)
    (now : ℚ) :
    (EnvironmentManager.should_switch_to_mainnet s now = true ↔
      s.environment = Env.testnet ∧ s.auto_switch_enabled = true ∧
      s.testnet_duration_hours ≤ now - s.start_time ∧
      s.min_trades_for_switch ≤ s.trade_count ∧
      s.max_drawdown_pct ≤ s.max_drawdown_pct_for_switch) ∧
    (s.environment ≠ Env.testnet →
      EnvironmentManager.should_switch_to_mainnet s now = false) ∧
    (s.auto_switch_enabled = false →
      EnvironmentManager.should_switch_to_mainnet s now = false) ∧
    (now - s.start_time < s.testnet_duration_hours →
      EnvironmentManager.should_switch_to_mainnet s now = false) ∧
    (s.trade_count < s.min_trades_for_switch →
      EnvironmentManager.should_switch_to_mainnet s now = false) ∧
    (s.max_drawdown_pct_for_switch < s.max_drawdown_pct →
      EnvironmentManager.should_switch_to_mainnet s now = false) := by
  have hiff := should_switch_true_iff s now
  refine ⟨hiff, ?_, ?_, ?_, ?_, ?_⟩ <;> intro h <;> rw [Bool.eq_false_iff]
  · intro hc
    exact h (hiff.mp hc).1
  · intro hc
    have := (hiff.mp hc).2.1
    rw [h] at this; cases this
  · intro hc
    have := (hiff.mp hc).2.2.1
    linarith
  · intro hc
    have := (hiff.mp hc).2.2.2.1
    omega
  · intro hc
    have := (hiff.mp hc).2.2.2.2
    linarith

/-- Witness for C1: every criterion passes in `ex_em` at `now = 72`, and
the theorem yields a true result there. -/
theorem should_switch_to_mainnet_iff_criteria_witness :
    EnvironmentManager.should_switch_to_mainnet ex_em 72 = true :=
  ((should_switch_to_mainnet_iff_criteria ex_em 72).1).mpr
    ⟨rfl, rfl, by norm_num [ex_em], by norm_num [ex_em],
     by norm_num [ex_em]⟩

/-- Claim C5 counterexample: with the current environment already
TESTNET, `set_environment(TESTNET)` is not a no-op — it increments the
switch counter, moves `last_switch_time` and persists a config file. -/
theorem set_environment_same_env_not_noop :
    ¬ ((EnvironmentManager.set_environment Env.testnet true 5
          ex_em).env_switch_total = ex_em.env_switch_total ∧
       (EnvironmentManager.set_environment Env.testnet true 5
          ex_em).last_switch_time = ex_em.last_switch_time ∧
       (EnvironmentManager.set_environment Env.testnet true 5
          ex_em).saved_configs = ex_em.saved_configs) := by
  intro h
  obtain ⟨h1, -, -⟩ := h
  simp [EnvironmentManager.set_environment, ex_em] at h1

/-- Claim C5 (amended): `switch_environment(target)` with `target`
equal to the current environment is an idempotent no-op — it returns
false and leaves the whole state (counter, `last_switch_time`,
persisted configs) unchanged — whereas `set_environment(env)` performs
its side effects unconditionally even when `env` equals the current
environment: it sets `last_switch_time` to now, increments the switch
counter, and persists the configuration exactly when `save` is true. -/
theorem switch_noop_set_unconditional (s : EnvManagerState) (now : ℚ)
    (env : Env) (save : Bool) :
    EnvironmentManager.switch_environment (some s.environment) now s
      = (false, s) ∧
    (EnvironmentManager.set_environment env save now s).env_switch_total
      = s.env_switch_total + 1 ∧
    (EnvironmentManager.set_environment env save now s).last_switch_time
      = now ∧
    (EnvironmentManager.set_environment env save now s).saved_configs.length
      = s.saved_configs.length + (if save then 1 else 0) := by
  refine ⟨?_, rfl, rfl, ?_⟩
  · unfold EnvironmentManager.switch_environment
    simp
  · unfold EnvironmentManager.set_environment
    cases save <;> simp

/-- Claim C7: `OrderRouter.update_performance_metrics` maintains
`max_drawdown_pct` as a running maximum of
`(peak_equity - current_equity) / peak_equity * 100`, so it never
decreases across calls; on the equity sequence 1000, 1200, 900, 1100
from the zero state it equals 25 after processing 900 and is still 25
after processing 1100. -/
theorem max_drawdown_high_water_mark :
    (∀ (st : RouterState) (em : EnvManagerState),
      st.max_drawdown_pct ≤
        ((OrderRouter.update_performance_metrics st em).1).max_drawdown_pct) ∧
    c7_s3.1.max_drawdown_pct = 25 ∧ c7_s4.1.max_drawdown_pct = 25 := by
  refine ⟨?_, ?_, ?_⟩
  · intro st em
    unfold OrderRouter.update_performance_metrics
    dsimp only
    split_ifs <;> first
      | exact le_max_left _ _
      | exact le_refl _
  · norm_num [c7_s3, c7_step, equity_router, ex_router_failover, ex_em,
      OrderRouter.update_performance_metrics, OrderRouter.poll_equity,
      ok_conn]
  · norm_num [c7_s4, c7_s3, c7_step, equity_router, ex_router_failover,
      ex_em, OrderRouter.update_performance_metrics,
      OrderRouter.poll_equity, ok_conn]

/-- Claim C8: `get_new_trade_count` is a consuming counter: when the
order history has grown by `n` records since the baseline
`total_trades`, it returns `n` and resets the baseline to the current
history length, so an immediate second call with no new records
returns 0. -/
theorem get_new_trade_count_consuming (st : RouterState) (n : ℕ)
    (h : st.order_history.length = st.total_trades + n) :
    (OrderRouter.get_new_trade_count st).1 = n ∧
    (OrderRouter.get_new_trade_count st).2.total_trades
      = st.order_history.length ∧
    (OrderRouter.get_new_trade_count
      (OrderRouter.get_new_trade_count st).2).1 = 0 := by
  unfold OrderRouter.get_new_trade_count
  dsimp only
  refine ⟨?_, rfl, ?_⟩
  · rw [h]
    push_cast
    rw [add_sub_cancel_left]
    exact max_eq_right (Int.natCast_nonneg n)
  · rw [sub_self]
    exact max_eq_right (le_refl 0)

/-- Witness for C8: a router with two history records and baseline 0
yields 2, then 0 on the immediate repeat call. -/
theorem get_new_trade_count_consuming_witness :
    (OrderRouter.get_new_trade_count
      { ex_router_failover with
        order_history := [{ status := "success" }, { status := "failed" }]
      }).1 = 2 ∧
    (OrderRouter.get_new_trade_count
      (OrderRouter.get_new_trade_count
        { ex_router_failover with
          order_history := [{ status := "success" }, { status := "failed" }]
        }).2).1 = 0 := by
  have h := get_new_trade_count_consuming
    { ex_router_failover with
      order_history := [{ status := "success" }, { status := "failed" }] }
    2 (by simp [ex_router_failover])
  exact ⟨h.1, h.2.2⟩

/-- The recursive failover loop finds exactly the first success of the
scanned list, in map order. -/
theorem place_failover_first (l : List (String × ExchangeConn))
    (p : OrderParams) :
    (place_failover l p).1 = first_success l p := by
  induction l with
  | nil => rfl
  | cons e rest ih =>
    obtain ⟨n, ex⟩ := e
    cases hx : ex.place_order p with
    | ok r =>
      simp [place_failover, first_success, List.findSome?_cons, hx]
    | error m =>
      simp only [place_failover, first_success, List.findSome?_cons, hx]
      exact ih

/-- The failover loop attempts at least its first exchange. -/
theorem place_failover_attempts_ne_nil (l : List (String × ExchangeConn))
    (p : OrderParams) (h : l ≠ []) : (place_failover l p).2 ≠ [] := by
  cases l with
  | nil => exact absurd rfl h
  | cons e rest =>
    obtain ⟨n, ex⟩ := e
    cases hx : ex.place_order p <;> simp [place_failover, hx]

/-- Branch equation: named exchange found and its call succeeds. -/
theorem place_order_eq_found_ok (st : RouterState) (p : OrderParams)
    (en : Option String) (ex : ExchangeConn) (r : OrderResponse)
    (hx : dict_get st.exchanges (resolve_exchange_name st en) = some ex)
    (hp : ex.place_order p = Except.ok r) :
    place_order st p en =
      (r,
       { st with order_history := st.order_history ++
           [{ exchange := resolve_exchange_name st en, params := some p,
              response := some r, status := "success" }] },
       [resolve_exchange_name st en]) := by
  simp only [place_order, hx, hp]

/-- Branch equation: named exchange found, its call raises, and the
failover scan succeeds. -/
theorem place_order_eq_found_err_failover_ok (st : RouterState)
    (p : OrderParams) (en : Option String) (ex : ExchangeConn)
    (msg : String) (n : String) (r : OrderResponse) (att : List String)
    (hx : dict_get st.exchanges (resolve_exchange_name st en) = some ex)
    (hp : ex.place_order p = Except.error msg)
    (hf : place_failover (other_exchanges st (resolve_exchange_name st en)) p
      = (some (n, r), att)) :
    place_order st p en =
      (r,
       { st with order_history := st.order_history ++
           [{ exchange := n, params := some p, response := some r,
              status := "success", failover := true }] },
       resolve_exchange_name st en :: att) := by
  simp only [place_order, hx, hp, hf]

/-- Branch equation: named exchange found, its call raises, and every
other exchange fails too. -/
theorem place_order_eq_found_err_all_fail (st : RouterState)
    (p : OrderParams) (en : Option String) (ex : ExchangeConn)
    (msg : String) (att : List String)
    (hx : dict_get st.exchanges (resolve_exchange_name st en) = some ex)
    (hp : ex.place_order p = Except.error msg)
    (hf : place_failover (other_exchanges st (resolve_exchange_name st en)) p
      = (none, att)) :
    place_order st p en =
      ({ status := "error", message := msg },
       { st with order_history := st.order_history ++
           [{ exchange := resolve_exchange_name st en, params := some p,
              status := "failed", error := msg }] },
       resolve_exchange_name st en :: att) := by
  simp only [place_order, hx, hp, hf]

/-- Branch equation: named exchange absent and the failover scan
succeeds. -/
theorem place_order_eq_missing_failover_ok (st : RouterState)
    (p : OrderParams) (en : Option String) (n : String)
    (r : OrderResponse) (att : List String)
    (hx : dict_get st.exchanges (resolve_exchange_name st en) = none)
    (hf : place_failover (other_exchanges st (resolve_exchange_name st en)) p
      = (some (n, r), att)) :
    place_order st p en =
      (r,
       { st with order_history := st.order_history ++
           [{ exchange := n, params := some p, response := some r,
              status := "success", failover := true }] },
       att) := by
  simp only [place_order, hx, hf]

/-- Branch equation: named exchange absent and every configured
exchange fails. -/
theorem place_order_eq_missing_all_fail (st : RouterState)
    (p : OrderParams) (en : Option String) (att : List String)
    (hx : dict_get st.exchanges (resolve_exchange_name st en) = none)
    (hf : place_failover (other_exchanges st (resolve_exchange_name st en)) p
      = (none, att)) :
    place_order st p en =
      ({ status := "error",
         message := "All exchanges failed to place order" },
       { st with order_history := st.order_history ++
           [{ exchange := resolve_exchange_name st en, params := some p,
              status := "failed", error := "All exchanges failed" }] },
       att) := by
  simp only [place_order, hx, hf]

/-- Rebuild a `place_failover` equation from a `first_success` fact. -/
theorem place_failover_of_first_success
    (l : List (String × ExchangeConn)) (p : OrderParams)
    (fs : Option (String × OrderResponse))
    (h : first_success l p = fs) :
    place_failover l p = (fs, (place_failover l p).2) := by
  subst h
  rw [← place_failover_first]

/-- `place_order` appends exactly one history record per call, a success
record carrying the returned response or a failed record on the named
exchange with an error result. -/
theorem place_order_appends_one_record (st : RouterState)
    (p : OrderParams) (en : Option String) :
    ∃ r : OrderRecord,
      (place_order st p en).2.1.order_history
        = st.order_history ++ [r] ∧
      (r.status = "success" ∨ r.status = "failed") ∧
      (r.status = "success" → r.response = some (place_order st p en).1) ∧
      (r.status = "failed" →
        (place_order st p en).1.status = "error" ∧ r.response = none ∧
        r.exchange = resolve_exchange_name st en ∧ r.failover = false) ∧
      (r.failover = true → r.status = "success") := by
  cases hx : dict_get st.exchanges (resolve_exchange_name st en) with
  | none =>
    rcases hf : place_failover
        (other_exchanges st (resolve_exchange_name st en)) p with ⟨fs, att⟩
    cases fs with
    | none =>
      rw [place_order_eq_missing_all_fail st p en att hx hf]
      exact ⟨_, rfl, Or.inr rfl, by simp, fun _ => ⟨rfl, rfl, rfl, rfl⟩,
        by simp⟩
    | some nr =>
      obtain ⟨n, r⟩ := nr
      rw [place_order_eq_missing_failover_ok st p en n r att hx hf]
      exact ⟨_, rfl, Or.inl rfl, fun _ => rfl, by simp, fun _ => rfl⟩
  | some ex =>
    cases hp : ex.place_order p with
    | ok r =>
      rw [place_order_eq_found_ok st p en ex r hx hp]
      exact ⟨_, rfl, Or.inl rfl, fun _ => rfl, by simp, by simp⟩
    | error msg =>
      rcases hf : place_failover
          (other_exchanges st (resolve_exchange_name st en)) p with ⟨fs, att⟩
      cases fs with
      | none =>
        rw [place_order_eq_found_err_all_fail st p en ex msg att hx hp hf]
        exact ⟨_, rfl, Or.inr rfl, by simp, fun _ => ⟨rfl, rfl, rfl, rfl⟩,
          by simp⟩
      | some nr =>
        obtain ⟨n, r⟩ := nr
        rw [place_order_eq_found_err_failover_ok st p en ex msg n r att
          hx hp hf]
        exact ⟨_, rfl, Or.inl rfl, fun _ => rfl, by simp, fun _ => rfl⟩

/-- Claim C2: `place_order` with any params and optional exchange name:
when the resolved exchange raises (or the named exchange is absent) the
remaining configured exchanges are tried in map order and the first
success is returned with a `failover = true` success record; when every
configured exchange fails the call returns a dict with
`status = error` (never raising); and in every case exactly one record
is appended to `order_history`, a success or failed record matching the
outcome. -/
theorem place_order_failover_spec (st : RouterState) (p : OrderParams)
    (en : Option String) :
    (∃ r : OrderRecord,
      (place_order st p en).2.1.order_history
        = st.order_history ++ [r] ∧
      (r.status = "success" ∨ r.status = "failed") ∧
      (r.status = "success" → r.response = some (place_order st p en).1) ∧
      (r.status = "failed" →
        (place_order st p en).1.status = "error" ∧ r.response = none ∧
        r.exchange = resolve_exchange_name st en ∧ r.failover = false) ∧
      (r.failover = true → r.status = "success")) ∧
    (∀ ex : ExchangeConn,
      dict_get st.exchanges (resolve_exchange_name st en) = some ex →
      ∀ msg, ex.place_order p = Except.error msg →
        (∀ n r, first_success
            (other_exchanges st (resolve_exchange_name st en)) p
              = some (n, r) →
          (place_order st p en).1 = r ∧
          (place_order st p en).2.1.order_history = st.order_history ++
            [{ exchange := n, params := some p, response := some r,
               status := "success", failover := true }]) ∧
        (first_success
            (other_exchanges st (resolve_exchange_name st en)) p = none →
          (place_order st p en).1
            = { status := "error", message := msg } ∧
          (place_order st p en).2.1.order_history = st.order_history ++
            [{ exchange := resolve_exchange_name st en, params := some p,
               status := "failed", error := msg }])) ∧
    (dict_get st.exchanges (resolve_exchange_name st en) = none →
      (∀ n r, first_success
          (other_exchanges st (resolve_exchange_name st en)) p
            = some (n, r) →
        (place_order st p en).1 = r ∧
        (place_order st p en).2.1.order_history = st.order_history ++
          [{ exchange := n, params := some p, response := some r,
             status := "success", failover := true }]) ∧
      (first_success
          (other_exchanges st (resolve_exchange_name st en)) p = none →
        (place_order st p en).1
          = { status := "error",
              message := "All exchanges failed to place order" } ∧
        (place_order st p en).2.1.order_history = st.order_history ++
          [{ exchange := resolve_exchange_name st en, params := some p,
             status := "failed", error := "All exchanges failed" }])) ∧
    (∀ (ex : ExchangeConn) (r : OrderResponse),
      dict_get st.exchanges (resolve_exchange_name st en) = some ex →
      ex.place_order p = Except.ok r →
        (place_order st p en).1 = r ∧
        (place_order st p en).2.1.order_history = st.order_history ++
          [{ exchange := resolve_exchange_name st en, params := some p,
             response := some r, status := "success" }]) := by
  refine ⟨place_order_appends_one_record st p en, ?_, ?_, ?_⟩
  · intro ex hx msg hp
    constructor
    · intro n r hfs
      have hpf := place_failover_of_first_success
        (other_exchanges st (resolve_exchange_name st en)) p _ hfs
      rw [place_order_eq_found_err_failover_ok st p en ex msg n r _
        hx hp hpf]
      exact ⟨rfl, rfl⟩
    · intro hfs
      have hpf := place_failover_of_first_success
        (other_exchanges st (resolve_exchange_name st en)) p _ hfs
      rw [place_order_eq_found_err_all_fail st p en ex msg _ hx hp hpf]
      exact ⟨rfl, rfl⟩
  · intro hx
    constructor
    · intro n r hfs
      have hpf := place_failover_of_first_success
        (other_exchanges st (resolve_exchange_name st en)) p _ hfs
      rw [place_order_eq_missing_failover_ok st p en n r _ hx hpf]
      exact ⟨rfl, rfl⟩
    · intro hfs
      have hpf := place_failover_of_first_success
        (other_exchanges st (resolve_exchange_name st en)) p _ hfs
      rw [place_order_eq_missing_all_fail st p en _ hx hpf]
      exact ⟨rfl, rfl⟩
  · intro ex r hx hp
    rw [place_order_eq_found_ok st p en ex r hx hp]
    exact ⟨rfl, rfl⟩

/-- Witness for C2: primary `bybit` raises, failover `okx` succeeds; the
`okx` response comes back and one `failover = true` success record is
appended. -/
theorem place_order_failover_spec_witness :
    (place_order ex_router_failover ex_params none).1
      = { status := "ok", order_id := "f1" } ∧
    (place_order ex_router_failover ex_params none).2.1.order_history
      = [{ exchange := "okx", params := some ex_params,
           response := some { status := "ok", order_id := "f1" },
           status := "success", failover := true }] := by
  have h := ((place_order_failover_spec ex_router_failover ex_params
      none).2.1 down_conn rfl "connection refused" rfl).1 "okx"
      { status := "ok", order_id := "f1" } rfl
  refine ⟨h.1, h.2.trans ?_⟩
  simp [ex_router_failover]

/-- Claim C6: when the resolved exchange raises, `update_order` and
`cancel_order` return a `status = error` dict immediately, invoking no
other configured exchange (the attempt trace is exactly the resolved
name) and appending exactly one failed record — in contrast to
`place_order`, whose attempt trace under the same failure continues
into the failover scan and has length at least two whenever another
exchange is configured. -/
theorem update_cancel_no_failover (st : RouterState) (oid : String)
    (up : UpdateParams) (p : OrderParams) (en : Option String)
    (ex : ExchangeConn)
    (hx : dict_get st.exchanges (resolve_exchange_name st en) = some ex) :
    (∀ msg, ex.update_order oid up = Except.error msg →
      update_order st oid up en =
        ({ status := "error", message := msg },
         { st with order_history := st.order_history ++
             [{ exchange := resolve_exchange_name st en, order_id := oid,
                update_params := some up, status := "failed",
                type := "update", error := msg }] },
         [resolve_exchange_name st en])) ∧
    (∀ msg, ex.cancel_order oid = Except.error msg →
      cancel_order st oid en =
        ({ status := "error", message := msg },
         { st with order_history := st.order_history ++
             [{ exchange := resolve_exchange_name st en, order_id := oid,
                status := "failed", type := "cancel", error := msg }] },
         [resolve_exchange_name st en])) ∧
    (∀ msg, ex.place_order p = Except.error msg →
      (place_order st p en).2.2
        = resolve_exchange_name st en ::
            (place_failover
              (other_exchanges st (resolve_exchange_name st en)) p).2 ∧
      (other_exchanges st (resolve_exchange_name st en) ≠ [] →
        1 < (place_order st p en).2.2.length)) := by
  refine ⟨?_, ?_, ?_⟩
  · intro msg hp
    simp only [update_order, hx, hp]
  · intro msg hp
    simp only [cancel_order, hx, hp]
  · intro msg hp
    rcases hpf : place_failover
        (other_exchanges st (resolve_exchange_name st en)) p with ⟨fs, att⟩
    have hlen : (other_exchanges st (resolve_exchange_name st en)) ≠ [] →
        0 < att.length := by
      intro hne
      have hnil := place_failover_attempts_ne_nil
        (other_exchanges st (resolve_exchange_name st en)) p hne
      rw [hpf] at hnil
      simp only [ne_eq] at hnil
      exact List.length_pos.mpr hnil
    cases fs with
    | none =>
      rw [place_order_eq_found_err_all_fail st p en ex msg att hx hp hpf]
      refine ⟨rfl, fun hne => ?_⟩
      have := hlen hne
      simp only [List.length_cons]
      omega
    | some nr =>
      obtain ⟨n, r⟩ := nr
      rw [place_order_eq_found_err_failover_ok st p en ex msg n r att
        hx hp hpf]
      refine ⟨rfl, fun hne => ?_⟩
      have := hlen hne
      simp only [List.length_cons]
      omega

/-- Witness for C6: on a router whose primary raises and with a healthy
failover configured, `update_order` fails immediately with a single
attempt, while `place_order` attempts more than one exchange. -/
theorem update_cancel_no_failover_witness :
    update_order ex_router_failover "o7" { stop_price := 90 } none
      = ({ status := "error", message := "connection refused" },
         { ex_router_failover with order_history :=
             [{ exchange := "bybit", order_id := "o7",
                update_params := some { stop_price := 90 },
                status := "failed", type := "update",
                error := "connection refused" }] },
         ["bybit"]) ∧
    1 < (place_order ex_router_failover ex_params none).2.2.length := by
  have h := update_cancel_no_failover ex_router_failover "o7"
    { stop_price := 90 } ex_params none down_conn rfl
  constructor
  · exact (h.1 "connection refused" rfl).trans
      (by simp [ex_router_failover, resolve_exchange_name])
  · refine (h.2.2 "connection refused" rfl).2 ?_
    simp [other_exchanges, ex_router_failover, resolve_exchange_name]

/-- If every configured exchange's `get_account_info` raises, the
polling loop returns the stale equity unchanged. -/
theorem poll_equity_all_fail (cur : ℚ)
    (l : List (String × ExchangeConn))
    (h : ∀ e ∈ l, ∃ msg, e.2.get_account_info = Except.error msg) :
    poll_equity cur l = cur := by
  induction l with
  | nil => rfl
  | cons e rest ih =>
    obtain ⟨n, ex⟩ := e
    obtain ⟨msg, hm⟩ := h (n, ex) (by simp)
    have hm2 : ex.get_account_info = Except.error msg := hm
    simp only [poll_equity, hm2]
    exact ih (fun q hq => h q (List.mem_cons_of_mem _ hq))

/-- Claim C10: when every configured exchange's `get_account_info`
raises during `OrderRouter.update_performance_metrics`, the method does
not raise, `current_equity` keeps its previous (stale) value, the peak
and drawdown are recomputed against that stale value, and the triple
(equity, trade count, max drawdown) is still forwarded to
`EnvironmentManager.update_performance_metrics`. -/
theorem update_performance_metrics_stale_on_total_failure
    (st : RouterState) (em : EnvManagerState)
    (h : ∀ e ∈ st.exchanges,
      ∃ msg, e.2.get_account_info = Except.error msg) :
    (OrderRouter.update_performance_metrics st em).1.current_equity
      = st.current_equity ∧
    (OrderRouter.update_performance_metrics st em).1.peak_equity
      = max st.peak_equity st.current_equity ∧
    (OrderRouter.update_performance_metrics st em).1.max_drawdown_pct
      = (if max st.peak_equity st.current_equity > 0 then
           max st.max_drawdown_pct
             ((max st.peak_equity st.current_equity - st.current_equity)
               / max st.peak_equity st.current_equity * 100)
         else st.max_drawdown_pct) ∧
    (OrderRouter.update_performance_metrics st em).2
      = EnvironmentManager.update_performance_metrics st.current_equity
          st.total_trades
          ((OrderRouter.update_performance_metrics st em).1.max_drawdown_pct)
          em := by
  have hpoll := poll_equity_all_fail st.current_equity st.exchanges h
  have hmax : (if st.current_equity > st.peak_equity then
      st.current_equity else st.peak_equity)
      = max st.peak_equity st.current_equity := by
    rcases le_or_lt st.current_equity st.peak_equity with hle | hlt
    · rw [if_neg (not_lt.mpr hle), max_eq_left hle]
    · rw [if_pos hlt, max_eq_right hlt.le]
  unfold OrderRouter.update_performance_metrics
  dsimp only
  rw [hpoll, hmax]
  exact ⟨rfl, rfl, rfl, rfl⟩

/-- Witness for C10: on `c10_router` (both exchanges down, stale equity
900 against peak 1200) the equity stays 900 and the forwarded trade
count is the router baseline. -/
theorem update_performance_metrics_stale_witness :
    (OrderRouter.update_performance_metrics c10_router ex_em).1.current_equity
      = 900 ∧
    (OrderRouter.update_performance_metrics c10_router ex_em).2.trade_count
      = 0 := by
  have h := update_performance_metrics_stale_on_total_failure c10_router
    ex_em ?_
  · refine ⟨h.1, ?_⟩
    rw [h.2.2.2]
    rfl
  · intro e he
    have hd : e = ("bybit", down_conn) ∨ e = ("okx", down_conn) := by
      simpa [c10_router, ex_router_all_down, ex_router_failover] using he
    refine ⟨"connection refused", ?_⟩
    rcases hd with hd | hd <;> subst hd <;> rfl

/-- `place_order` never touches the active-position book. -/
theorem place_order_active_positions (st : RouterState) (p : OrderParams)
    (en : Option String) :
    (place_order st p en).2.1.active_positions = st.active_positions := by
  cases hx : dict_get st.exchanges (resolve_exchange_name st en) with
  | none =>
    rcases hf : place_failover
        (other_exchanges st (resolve_exchange_name st en)) p with ⟨fs, att⟩
    cases fs with
    | none => rw [place_order_eq_missing_all_fail st p en att hx hf]
    | some nr =>
      obtain ⟨n, r⟩ := nr
      rw [place_order_eq_missing_failover_ok st p en n r att hx hf]
  | some ex =>
    cases hp : ex.place_order p with
    | ok r => rw [place_order_eq_found_ok st p en ex r hx hp]
    | error msg =>
      rcases hf : place_failover
          (other_exchanges st (resolve_exchange_name st en)) p with ⟨fs, att⟩
      cases fs with
      | none =>
        rw [place_order_eq_found_err_all_fail st p en ex msg att hx hp hf]
      | some nr =>
        obtain ⟨n, r⟩ := nr
        rw [place_order_eq_found_err_failover_ok st p en ex msg n r att
          hx hp hf]

/-- `cancel_order` never touches the active-position book. -/
theorem cancel_order_active_positions (st : RouterState) (oid : String)
    (en : Option String) :
    (cancel_order st oid en).2.1.active_positions
      = st.active_positions := by
  simp only [cancel_order]
  cases hx : dict_get st.exchanges (resolve_exchange_name st en) with
  | none => rfl
  | some ex =>
    cases hp : ex.cancel_order oid with
    | ok r => simp [hp]
    | error m => simp [hp]

/-- Claim C3: on an `open` signal the stop order is placed only after
the entry order returns success; a failed entry yields an error result
with no stop call and no position created; a failed stop after a
successful entry yields a best-effort cancel of the entry order, an
error result and no position; the position for the symbol is created
exactly when both orders succeed. -/
theorem execute_open_entry_then_stop (st : RouterState)
    (equity_ok : Bool) (signal : Signal) (symbol : String)
    (er : OrderResponse) (st1 : RouterState) (a1 : List String)
    (ha : signal.action = "open")
    (hentry : place_order st (entry_params signal symbol) none
      = (er, st1, a1)) :
    (er.status = "error" →
      execute_strategy st true true equity_ok signal symbol =
        ({ status := "error",
           message := "Failed to place entry order: " ++ er.message },
         st1, [RouterCall.place (entry_params signal symbol)]) ∧
      st1.active_positions = st.active_positions) ∧
    (¬ er.status = "error" →
      ∀ (sr : OrderResponse) (st2 : RouterState) (a2 : List String),
        place_order st1 (stop_loss_params signal symbol) none
          = (sr, st2, a2) →
        (sr.status = "error" →
          execute_strategy st true true equity_ok signal symbol =
            ({ status := "error",
               message := "Failed to place stop loss order: "
                 ++ sr.message },
             (cancel_order st2 er.order_id none).2.1,
             [RouterCall.place (entry_params signal symbol),
              RouterCall.place (stop_loss_params signal symbol),
              RouterCall.cancel er.order_id]) ∧
          (cancel_order st2 er.order_id none).2.1.active_positions
            = st.active_positions) ∧
        (¬ sr.status = "error" →
          execute_strategy st true true equity_ok signal symbol =
            ({ status := "success", action := "open",
               side := signal.side, size := signal.size,
               entry_price := signal.entry_price,
               stop_loss := signal.stop_loss, entry_order := some er,
               stop_order := some sr },
             { st2 with active_positions := (
                 dict_set st2.active_positions symbol
                   { side := signal.side, size := signal.size,
                     entry_price := signal.entry_price,
                     stop_loss := signal.stop_loss,
                     stop_order_id := sr.order_id,
                     entry_order_id := er.order_id }) },
             [RouterCall.place (entry_params signal symbol),
              RouterCall.place (stop_loss_params signal symbol)]))) := by
  have hpos1 : st1.active_positions = st.active_positions := by
    have h := place_order_active_positions st (entry_params signal symbol)
      none
    rw [hentry] at h
    exact h
  constructor
  · intro he
    refine ⟨?_, hpos1⟩
    simp [execute_strategy, ha, hentry, he]
  · intro hne sr st2 a2 hstop
    have hpos2 : st2.active_positions = st.active_positions := by
      have h := place_order_active_positions st1
        (stop_loss_params signal symbol) none
      rw [hstop] at h
      exact h.trans hpos1
    constructor
    · intro hse
      constructor
      · simp [execute_strategy, ha, hentry, hne, hstop, hse]
      · exact (cancel_order_active_positions st2 er.order_id none).trans
          hpos2
    · intro hsne
      simp [execute_strategy, ha, hentry, hne, hstop, hsne]

/-- Witness for C3: with every exchange down, the entry order fails,
the tick reports an error and the position book stays empty. -/
theorem execute_open_entry_then_stop_witness :
    (execute_strategy ex_router_all_down true true true ex_open_signal
      "BTCUSDT").1.status = "error" ∧
    (execute_strategy ex_router_all_down true true true ex_open_signal
      "BTCUSDT").2.1.active_positions = [] := by
  have h := (execute_open_entry_then_stop ex_router_all_down true
      ex_open_signal "BTCUSDT"
      (place_order ex_router_all_down
        (entry_params ex_open_signal "BTCUSDT") none).1
      (place_order ex_router_all_down
        (entry_params ex_open_signal "BTCUSDT") none).2.1
      (place_order ex_router_all_down
        (entry_params ex_open_signal "BTCUSDT") none).2.2
      rfl rfl).1 rfl
  rw [h.1]
  exact ⟨rfl, h.2⟩

/-- Claim C9: with no active position for the symbol, a `close` signal
returns a warning result (not an error, and a total function cannot
raise), an `update_stop` signal likewise returns a warning, and an
`update_stop` signal on a position with no recorded stop-order id
returns a warning; in all three cases no order call is made and the
router state — the position book included — is unchanged. -/
theorem execute_close_update_stop_flat_warning (st : RouterState)
    (equity_ok : Bool) (signal : Signal) (symbol : String) :
    (dict_get st.active_positions symbol = none →
      signal.action = "close" →
      execute_strategy st true true equity_ok signal symbol =
        ({ status := "warning",
           message := "No active position found for " ++ symbol },
         st, [])) ∧
    (dict_get st.active_positions symbol = none →
      signal.action = "update_stop" →
      execute_strategy st true true equity_ok signal symbol =
        ({ status := "warning",
           message := "No active position found for " ++ symbol },
         st, [])) ∧
    (∀ position : ActivePosition,
      dict_get st.active_positions symbol = some position →
      position.stop_order_id = "" →
      signal.action = "update_stop" →
      execute_strategy st true true equity_ok signal symbol =
        ({ status := "warning",
           message := "No stop order ID found for " ++ symbol },
         st, [])) := by
  refine ⟨?_, ?_, ?_⟩
  · intro hnone ha
    simp [execute_strategy, ha, hnone]
  · intro hnone ha
    simp [execute_strategy, ha, hnone]
  · intro position hpos hsid ha
    simp [execute_strategy, ha, hpos, hsid]

/-- Witness for C9: a flat router receiving a `close` signal reports a
warning and is left untouched. -/
theorem execute_close_flat_warning_witness :
    execute_strategy ex_router_ok true true true { action := "close" }
      "BTCUSDT" =
      ({ status := "warning",
         message := "No active position found for " ++ "BTCUSDT" },
       ex_router_ok, []) :=
  (execute_close_update_stop_flat_warning ex_router_ok true
    { action := "close" } "BTCUSDT").1 rfl rfl

/-- Claim C4: `handle_env_change` is a no-op returning false when the
target equals the current environment or when the target is omitted
and the promotion criteria fail; otherwise it closes all positions,
switches the environment and rebuilds the connector set, in that
order, returning true — and it proceeds to the switch and the rebuild
even when `close_all_positions` reports failure. -/
theorem handle_env_change_spec (create : ExchangeCfg → Option ExchangeConn)
    (now : ℚ) (st : RouterState) (em : EnvManagerState) :
    (∀ t, t = em.environment →
      handle_env_change create now (some t) st em = (false, st, em)) ∧
    (EnvironmentManager.should_switch_to_mainnet em now = false →
      handle_env_change create now none st em = (false, st, em)) ∧
    (∀ t, ¬ t = em.environment →
      handle_env_change create now (some t) st em =
        (true,
         { (close_all_positions st).2 with exchanges := (
             setup_exchanges create
               (close_all_positions st).2.config_exchanges) },
         (EnvironmentManager.switch_environment (some t) now em).2)) ∧
    (EnvironmentManager.should_switch_to_mainnet em now = true →
      handle_env_change create now none st em
        = handle_env_change create now (some Env.mainnet) st em) ∧
    (∀ t, ¬ t = em.environment → (close_all_positions st).1 = false →
      (handle_env_change create now (some t) st em).1 = true) := by
  refine ⟨?_, ?_, ?_, ?_, ?_⟩
  · intro t ht
    subst ht
    simp [handle_env_change]
  · intro hs
    simp [handle_env_change, hs]
  · intro t ht
    have hne : ¬ em.environment = t := fun hc => ht hc.symm
    simp [handle_env_change, hne]
  · intro hs
    simp [handle_env_change, hs]
  · intro t ht hcf
    have hne : ¬ em.environment = t := fun hc => ht hc.symm
    simp [handle_env_change, hne]

/-- Witness for C4: switching to the current environment (TESTNET) is
refused, while an explicit switch to MAINNET goes through. -/
theorem handle_env_change_spec_witness :
    handle_env_change no_factory 5 (some Env.testnet) ex_router_failover
      ex_em = (false, ex_router_failover, ex_em) ∧
    (handle_env_change no_factory 5 (some Env.mainnet) ex_router_failover
      ex_em).1 = true := by
  have h := handle_env_change_spec no_factory 5 ex_router_failover ex_em
  refine ⟨h.1 Env.testnet rfl, ?_⟩
  rw [h.2.2.1 Env.mainnet (by decide)]

end Kraken
